import Mathlib

/-!
Shallow embedding of the Prinko Weather App (src/app.py): the weather client's
result classification, the forecast reduction, the autocomplete coordinator
(debounce guard, suggestion rendering, navigation), and the error-path UI
callbacks. Python strings are modelled as lists of characters; Python's `in`
on strings is substring containment, `or`/`and` on values is
truthiness-based selection, and insertion-ordered dicts are association
lists. Definitions come first, then the theorems about them.
-/

namespace WeatherApp

/-- Python strings, modelled as lists of characters. -/
abbrev PyStr := List Char

/-- `s.lower()` (ASCII case folding, as the condition strings here are ASCII). -/
def pyLower (s : PyStr) : PyStr := s.map Char.toLower

/-- Whether `pat` occurs at the start of `s` (helper for substring search). -/
def strStartsWith : PyStr → PyStr → Bool
  | _, [] => true
  | [], _ :: _ => false
  | a :: as, b :: bs => (a == b) && strStartsWith as bs

/-- Python `pat in s`: substring containment. -/
def strContains : PyStr → PyStr → Bool
  | [], pat => pat.isEmpty
  | a :: as, pat => strStartsWith (a :: as) pat || strContains as pat

/-- Python `s.strip()`. -/
def pyStrip (s : PyStr) : PyStr :=
  ((s.dropWhile Char.isWhitespace).reverse.dropWhile Char.isWhitespace).reverse

/-- Python `str.title()` on ASCII text: a letter is uppercased after a
non-letter and lowercased otherwise. -/
def pyTitleAux : List Char → Bool → List Char
  | [], _ => []
  | c :: rest, prevAlpha =>
    (if prevAlpha then c.toLower else c.toUpper) :: pyTitleAux rest c.isAlpha

/-- Python `s.title()`. -/
def pyTitle (s : PyStr) : PyStr := pyTitleAux s false

/-- Python `str(data.get("cod"))`: `str(None)` is `"None"`. -/
def pyStrOfOpt : Option PyStr → PyStr
  | none => "None".toList
  | some s => s

/-! ## Theme selection (src/app.py lines 188-203) -/

/-- Background colors used by `update_theme` in src/app.py. -/
def sunnyBg : PyStr := "#fff7b2".toList

def grayBg : PyStr := "#e6e6e6".toList

def blueBg : PyStr := "#cfe8ff".toList

def defaultBg : PyStr := "#f5f7fb".toList

/-- The keyword "clear" matched by `update_theme`. -/
def kwClear : PyStr := "clear".toList

/-- The keyword "cloud" matched by `update_theme`. -/
def kwCloud : PyStr := "cloud".toList

/-- The keyword "rain" matched by `update_theme`. -/
def kwRain : PyStr := "rain".toList

/-- The keyword "drizzle" matched by `update_theme`. -/
def kwDrizzle : PyStr := "drizzle".toList

/-- The keyword "thunder" matched by `update_theme`. -/
def kwThunder : PyStr := "thunder".toList

/-- `WeatherApp.update_theme` (src/app.py lines 188-203): the background color
computed from the condition's main category, by case-insensitive substring
match, first match wins. -/
def update_theme (condition_main : PyStr) : PyStr :=
  let cond := pyLower condition_main
  if strContains cond kwClear then sunnyBg
  else if strContains cond kwCloud then grayBg
  else if ([kwRain, kwDrizzle, kwThunder].any fun k => strContains cond k) then blueBg
  else defaultBg

/-! ## Autocomplete suggestion state (src/app.py lines 108-117, 258-305) -/

/-- State of the autocomplete suggestion listbox: its items, whether it is
placed (`suggestions_visible`), the current selection index (Tk
`curselection`, empty right after the box is refilled), and the last error
dialog shown (`messagebox.showerror`), if any. -/
structure SuggestState where
  boxItems : List PyStr
  visible : Bool
  selection : Option Nat
  dialog : Option (PyStr × PyStr)
deriving DecidableEq

/-- `WeatherApp._hide_suggestions` (src/app.py lines 277-280). -/
def hide_suggestions (s : SuggestState) : SuggestState :=
  if s.visible then { s with visible := false } else s

/-- `WeatherApp._show_suggestions` (src/app.py lines 258-275): clears the
listbox (which clears the selection), inserts the given items, then hides the
box when the list is empty and otherwise places it and marks it visible. -/
def show_suggestions (s : SuggestState) (items : List PyStr) : SuggestState :=
  let s1 : SuggestState := { s with boxItems := items, selection := none }
  if items = [] then hide_suggestions s1
  else { s1 with visible := true }

/-- `WeatherApp._on_suggestion_select` (src/app.py lines 282-288), restricted
to its effect on the suggestion state: with a selection present the box is
hidden (and a weather fetch starts); otherwise nothing happens. -/
def on_suggestion_select (s : SuggestState) : SuggestState :=
  match s.selection with
  | some _ => hide_suggestions s
  | none => s

/-- The two keys bound to `_navigate_suggestions` (src/app.py lines 115-116). -/
inductive Keysym where
  | up
  | down
deriving DecidableEq

/-- The new index computed by `WeatherApp._navigate_suggestions`
(src/app.py lines 299-301): Python's `%` on a positive divisor agrees with
the mathematical (Euclidean) remainder, which is `Int.emod` here. -/
def navigate_index (key : Keysym) (current : Option Nat) (size : Nat) : Nat :=
  match key, current with
  | .up, some i => (((i : Int) - 1) % (size : Int)).toNat
  | .down, some i => (((i : Int) + 1) % (size : Int)).toNat
  | _, none => 0

/-- `WeatherApp._navigate_suggestions` (src/app.py lines 293-305): returns
untouched state unless the suggestions are visible; otherwise clears the
selection and selects the computed index. -/
def navigate_suggestions (s : SuggestState) (key : Keysym) : SuggestState :=
  if s.visible = false then s
  else { s with selection := some (navigate_index key s.selection s.boxItems.length) }

/-- The invariant of C10: the box is visible only when it holds ≥ 1 item. -/
def SuggestInv (s : SuggestState) : Prop := s.visible = true → s.boxItems ≠ []

/-! ## Autocomplete queries and result delivery (src/app.py lines 229-256) -/

/-- A geocoding result item, as read by `_do_autocomplete`'s worker with
`it.get("name", "")`, `it.get("state", "")`, `it.get("country", "")`
(an absent field is the empty string). -/
structure GeoItem where
  name : PyStr
  state : PyStr
  country : PyStr
deriving DecidableEq

/-- The suggestion label built per item (src/app.py lines 243-250): Python's
`if state:` is emptiness truthiness on the string. -/
def format_suggestion (it : GeoItem) : PyStr :=
  if it.state ≠ [] then
    it.name ++ (", ".toList) ++ it.state ++ (", ".toList) ++ it.country
  else
    it.name ++ (", ".toList) ++ it.country

/-- Outcome of the geocoding request in `_do_autocomplete`'s worker: a parsed
item list, or any raised exception (connection failure, a non-success HTTP
status raised by `raise_for_status`, malformed JSON). -/
inductive GeoOutcome where
  | ok (items : List GeoItem)
  | exc
deriving DecidableEq

/-- The suggestion list the worker ends up with (src/app.py lines 236-252):
formatted labels on success, `[]` on any exception. -/
def worker_suggestions : GeoOutcome → List PyStr
  | .ok items => items.map format_suggestion
  | .exc => []

/-- The single callback the worker enqueues on the UI thread
(src/app.py line 254): `_show_suggestions(suggestions)`. No other UI call —
in particular no `messagebox` call — exists on this path. -/
def autocomplete_deliver (outcome : GeoOutcome) (s : SuggestState) : SuggestState :=
  show_suggestions s (worker_suggestions outcome)

/-- The autocomplete coordinator's observable trace state: the suggestion UI
state plus a count of queries issued so far. The count is the spec's
RequestEpoch; src/app.py itself keeps no such counter. -/
structure AcState where
  ui : SuggestState
  issued : Nat
deriving DecidableEq

/-- Issuing one more autocomplete query: the debounce timer fired with a
stripped query of length ≥ 2 and `_do_autocomplete` started a worker
(src/app.py line 256). -/
def issue_query (st : AcState) : AcState := { st with issued := st.issued + 1 }

/-- Delivery of an autocomplete worker's result on the UI thread
(src/app.py line 254): the enqueued callback is `_show_suggestions(result)`
unconditionally. `tag` is the 1-based index of the query that produced the
result; the code gives the callback no access to any such tag, so delivery
cannot depend on it. -/
def deliver_result (st : AcState) (tag : Nat) (res : List PyStr) : AcState :=
  { st with ui := show_suggestions st.ui res }

/-- Initial autocomplete state: empty hidden box, no queries issued. -/
def acInit : AcState := ⟨⟨[], false, none, none⟩, 0⟩

/-! ## Current-weather fetch (src/app.py lines 357-477) -/

/-- One entry of the payload's `weather` array, as read with
`condition.get("main", "")` etc.; `none` is an absent field. -/
structure WeatherCondition where
  main : Option PyStr
  description : Option PyStr
  icon : Option PyStr
deriving DecidableEq

/-- A current-weather response payload, as accessed by `fetch_weather`'s
worker (src/app.py lines 383-399). `cod` holds the stringified form of
`data.get("cod")` when the field is present; numbers are modelled as
integers, since the claims below concern only presence and zero-ness. -/
structure WeatherPayload where
  cod : Option PyStr
  message : Option PyStr
  temp : Option Int
  feels_like : Option Int
  humidity : Option Int
  wind_speed : Option Int
  weather : List WeatherCondition
deriving DecidableEq

/-- `condition = weather_list[0] if weather_list else {}`
(src/app.py line 392). -/
def condOf (data : WeatherPayload) : WeatherCondition :=
  data.weather.head?.getD ⟨none, none, none⟩

/-- The default message of the error branch (src/app.py line 385). -/
def default_weather_msg : PyStr := "Unable to fetch weather data.".toList

/-- `f"API error: {msg}"` (src/app.py line 386): the text the raised
`ValueError` carries, hence the City Error dialog's message. -/
def api_error_text (msg : PyStr) : PyStr := "API error: ".toList ++ msg

/-- How `fetch_weather`'s worker classifies a response. The error branch is
delivered as the City Error dialog (src/app.py lines 441-451). -/
inductive FetchOutcome where
  | success (temp feels_like humidity : Option Int) (wind_speed : Int)
      (cond_main cond_desc icon : PyStr)
  | cityError (message : PyStr)
deriving DecidableEq

/-- `fetch_weather`'s response handling (src/app.py lines 383-399): non-200
transport status or stringified payload `cod` ≠ "200" raises
`ValueError(f"API error: {msg}")` with `msg = data.get("message",
"Unable to fetch weather data.")`; otherwise the display fields are
extracted, wind speed defaulting to 0 when absent. -/
def fetch_weather_classify (status_code : Nat) (data : WeatherPayload) :
    FetchOutcome :=
  if status_code ≠ 200 ∨ pyStrOfOpt data.cod ≠ "200".toList then
    .cityError (api_error_text (data.message.getD default_weather_msg))
  else
    .success data.temp data.feels_like data.humidity (data.wind_speed.getD 0)
      ((condOf data).main.getD []) (pyTitle ((condOf data).description.getD []))
      ((condOf data).icon.getD [])

/-! ## Pre-network guards of the three fetch actions (C3) -/

/-- What a fetch action does before (or instead of) reaching the network:
whether a request is issued, the key it would carry, whether the
missing-API-key dialog is shown, and the status line it sets. -/
structure FetchStart where
  networkCall : Bool
  keySent : Option PyStr
  credDialog : Bool
  status : Option PyStr
deriving DecidableEq

/-- The guards of `fetch_weather` (src/app.py lines 357-375): empty stripped
city → status message only; empty API key → Missing API Key dialog, no
request; otherwise the request is issued carrying the key. -/
def fetch_weather_start (city_raw api_key : PyStr) : FetchStart :=
  if pyStrip city_raw = [] then
    ⟨false, none, false, some ("Please enter a city name.".toList)⟩
  else if api_key = [] then ⟨false, none, true, none⟩
  else ⟨true, some api_key, false, some ("Fetching weather…".toList)⟩

/-- The guards of `fetch_forecast` (src/app.py lines 307-319). -/
def fetch_forecast_start (city_raw api_key : PyStr) : FetchStart :=
  if pyStrip city_raw = [] then
    ⟨false, none, false, some ("Please enter a city name first.".toList)⟩
  else if api_key = [] then ⟨false, none, true, none⟩
  else ⟨true, some api_key, false, some ("Fetching forecast…".toList)⟩

/-- The guard of `_do_autocomplete` (src/app.py lines 229-238): a stripped
query that is empty or shorter than 2 characters only hides the suggestions;
otherwise the worker issues the geocoding request with whatever
`load_api_key()` returned — the key is never checked on this path. -/
def do_autocomplete_start (q_raw api_key : PyStr) : FetchStart :=
  let q := pyStrip q_raw
  if q = [] ∨ q.length < 2 then ⟨false, none, false, none⟩
  else ⟨true, some api_key, false, none⟩

/-! ## The details line of `update_ui` (C9) -/

/-- The details line set by `update_ui` (src/app.py lines 422-426), recorded
as which branch of the conditional expression is taken together with the
shown values and unit symbols. -/
inductive DetailsLine where
  | values (humidity wind_speed feels_like : Int) (windSym tempSym : PyStr)
  | placeholder (windSym tempSym : PyStr)
deriving DecidableEq

/-- Python truthiness of an optional number: `None` and 0 are falsy. -/
def truthyNum : Option Int → Bool
  | none => false
  | some n => n != 0

/-- The conditional expression choosing the details line
(src/app.py lines 422-426): the joint guard is
`humidity and wind_speed and feels_like`. -/
def update_ui_details (humidity : Option Int) (wind_speed : Int)
    (feels_like : Option Int) (windSym tempSym : PyStr) : DetailsLine :=
  if truthyNum humidity && (wind_speed != 0) && truthyNum feels_like then
    .values (humidity.getD 0) wind_speed (feels_like.getD 0) windSym tempSym
  else .placeholder windSym tempSym

/-! ## Worker failure callbacks (C5) -/

/-- The interactive controls and busy indicator the fetch paths mutate. -/
structure Controls where
  fetch_btn_enabled : Bool
  forecast_btn_enabled : Bool
  progress_visible : Bool
  progress_running : Bool
  status : PyStr
  dialog : Option (PyStr × PyStr)
deriving DecidableEq

/-- UI setup done by `fetch_weather` before starting its worker
(src/app.py lines 372-375). -/
def fetch_weather_busy (s : Controls) : Controls :=
  { s with status := "Fetching weather…".toList, fetch_btn_enabled := false,
           progress_visible := true, progress_running := true }

/-- UI setup done by `fetch_forecast` before starting its worker
(src/app.py lines 318-319); it never touches the progress bar. -/
def fetch_forecast_busy (s : Controls) : Controls :=
  { s with status := "Fetching forecast…".toList, forecast_btn_enabled := false }

/-- `show_err` (src/app.py lines 444-449): City Error dialog, progress
cleared, fetch button re-enabled. -/
def show_err (m : PyStr) (s : Controls) : Controls :=
  { s with status := m, dialog := some ("City Error".toList, m),
           progress_running := false, progress_visible := false,
           fetch_btn_enabled := true }

/-- `show_net` (src/app.py lines 456-461). -/
def show_net (m : PyStr) (s : Controls) : Controls :=
  { s with status := "Network error — check internet and try again.".toList,
           dialog := some ("Network Error".toList, m),
           progress_running := false, progress_visible := false,
           fetch_btn_enabled := true }

/-- `show_generic` (src/app.py lines 468-473). -/
def show_generic (m : PyStr) (s : Controls) : Controls :=
  { s with status := "Unexpected error occurred.".toList,
           dialog := some ("Error".toList, m),
           progress_running := false, progress_visible := false,
           fetch_btn_enabled := true }

/-- The forecast worker's `except` callback (src/app.py line 351). -/
def forecast_error_cb (m : PyStr) (s : Controls) : Controls :=
  { s with dialog := some ("Forecast Error".toList, m) }

/-- The forecast worker's `finally` callback (src/app.py line 353). -/
def forecast_finally_cb (s : Controls) : Controls :=
  { s with forecast_btn_enabled := true }

/-- The three failure classes of `fetch_weather`'s worker
(src/app.py lines 441-475). -/
inductive WeatherFailure where
  | valueError (m : PyStr)
  | requestExc (m : PyStr)
  | otherExc (m : PyStr)
deriving DecidableEq

/-- The UI callbacks `fetch_weather`'s worker enqueues on each failure class
(each `except` arm enqueues exactly one). -/
def weather_failure_callbacks : WeatherFailure → List (Controls → Controls)
  | .valueError m => [show_err m]
  | .requestExc m => [show_net m]
  | .otherExc m => [show_generic m]

/-- The UI callbacks `fetch_forecast`'s worker enqueues on a failure: the
`except` arm's dialog callback, then the `finally` arm's re-enable callback,
in FIFO order. -/
def forecast_failure_callbacks (m : PyStr) : List (Controls → Controls) :=
  [forecast_error_cb m, forecast_finally_cb]

/-- Applying enqueued UI callbacks in FIFO order. -/
def applyCallbacks (cbs : List (Controls → Controls)) (s : Controls) : Controls :=
  cbs.foldl (fun st f => f st) s

/-! ## Forecast reduction (src/app.py lines 321-344, C4) -/

/-- One entry of the forecast payload's `list`, as accessed by
`fetch_forecast`'s worker: `item["dt_txt"]` and `item["main"]["temp"]`. -/
structure ForecastItem where
  dt_txt : PyStr
  temp : Int
deriving DecidableEq

/-- The date key of an item: `item["dt_txt"][:10]` (src/app.py line 337). -/
def dateOf (it : ForecastItem) : PyStr := it.dt_txt.take 10

/-- One iteration of the loop (src/app.py lines 336-340):
`if dt not in forecast or temp > forecast[dt]: forecast[dt] = temp`.
A Python dict assignment to an existing key keeps its position; a new key is
appended, so the insertion-ordered dict is an association list. -/
def forecast_step : List (PyStr × Int) → PyStr → Int → List (PyStr × Int)
  | [], dt, temp => [(dt, temp)]
  | (k, v) :: rest, dt, temp =>
    if k = dt then (if temp > v then (k, temp) else (k, v)) :: rest
    else (k, v) :: forecast_step rest dt temp

/-- The whole loop of `fetch_forecast`'s worker (src/app.py lines 335-340). -/
def forecast_map (items : List ForecastItem) : List (PyStr × Int) :=
  items.foldl (fun acc it => forecast_step acc (dateOf it) it.temp) []

/-- The rendered entries: `list(forecast.items())[:5]`
(src/app.py lines 342-344). -/
def fetch_forecast_entries (items : List ForecastItem) : List (PyStr × Int) :=
  (forecast_map items).take 5

/-- Specification-side helper: the dates in order of first appearance, later
duplicates removed. -/
def dedupFirst : List PyStr → List PyStr
  | [] => []
  | d :: rest => d :: dedupFirst (rest.filter fun x => decide (x ≠ d))
termination_by l => l.length
decreasing_by
  simp only [List.length_cons]
  exact Nat.lt_succ_of_le (List.length_filter_le _ _)

/-- Specification-side helper: the temperatures of a given date's samples, in
input order. -/
def dateTemps (items : List ForecastItem) (d : PyStr) : List Int :=
  (items.filter fun it => decide (dateOf it = d)).map ForecastItem.temp

/-- Specification-side helper: the maximum of two optional values. -/
def maxOpt : Option Int → Option Int → Option Int
  | none, b => b
  | some a, none => some a
  | some a, some b => some (max a b)

/-- Specification-side helper: the maximum of a list of temperatures. -/
def listMax : List Int → Option Int
  | [] => none
  | t :: ts => maxOpt (some t) (listMax ts)

/-- Lookup in the association list modelling the forecast dict. -/
def fcLookup : List (PyStr × Int) → PyStr → Option Int
  | [], _ => none
  | (k, v) :: rest, d => if k = d then some v else fcLookup rest d

/-! ## Helper lemmas -/

theorem maxOpt_none_right (a : Option Int) : maxOpt a none = a := by
  cases a <;> rfl

theorem maxOpt_assoc (a b c : Option Int) :
    maxOpt (maxOpt a b) c = maxOpt a (maxOpt b c) := by
  cases a <;> cases b <;> cases c <;> simp [maxOpt, max_assoc]

theorem maxOpt_comm (a b : Option Int) : maxOpt a b = maxOpt b a := by
  cases a <;> cases b <;> simp [maxOpt, max_comm]

theorem if_gt_eq_max (v t : Int) : (if t > v then t else v) = max v t := by
  rw [max_def]
  split <;> split <;> omega

theorem listMax_perm {l1 l2 : List Int} (h : l1.Perm l2) :
    listMax l1 = listMax l2 := by
  induction h with
  | nil => rfl
  | cons x _ ih => simp [listMax, ih]
  | swap x y l =>
    simp only [listMax, ← maxOpt_assoc]
    rw [maxOpt_comm (some y) (some x)]
  | trans _ _ ih1 ih2 => exact ih1.trans ih2

theorem forecast_step_keys (acc : List (PyStr × Int)) (dt : PyStr) (t : Int) :
    (forecast_step acc dt t).map Prod.fst =
      if dt ∈ acc.map Prod.fst then acc.map Prod.fst
      else acc.map Prod.fst ++ [dt] := by
  induction acc with
  | nil => simp [forecast_step]
  | cons kv rest ih =>
    obtain ⟨k, v⟩ := kv
    by_cases hk : k = dt
    · subst hk
      have hpair : (if t > v then (k, t) else (k, v)) = (k, max v t) := by
        rw [← if_gt_eq_max v t]
        split <;> rfl
      simp only [forecast_step, if_pos rfl, hpair, List.map_cons]
      simp
    · simp only [forecast_step, if_neg hk, List.map_cons, ih, List.mem_cons]
      by_cases hmem : dt ∈ rest.map Prod.fst
      · simp [hmem, Ne.symm hk]
      · simp [hmem, Ne.symm hk]

theorem fcLookup_forecast_step (acc : List (PyStr × Int)) (dt : PyStr)
    (t : Int) (d : PyStr) :
    fcLookup (forecast_step acc dt t) d =
      if d = dt then maxOpt (fcLookup acc d) (some t) else fcLookup acc d := by
  induction acc with
  | nil =>
    by_cases hd : d = dt
    · subst hd
      simp [forecast_step, fcLookup, maxOpt]
    · simp [forecast_step, fcLookup, hd, Ne.symm hd]
  | cons kv rest ih =>
    obtain ⟨k, v⟩ := kv
    by_cases hk : k = dt
    · subst hk
      have hpair : (if t > v then (k, t) else (k, v)) = (k, max v t) := by
        rw [← if_gt_eq_max v t]
        split <;> rfl
      simp only [forecast_step, if_pos rfl, hpair]
      by_cases hd : d = k
      · subst hd
        simp [fcLookup, maxOpt]
      · simp [fcLookup, Ne.symm hd, hd]
    · simp only [forecast_step, if_neg hk]
      by_cases hd : k = d
      · subst hd
        simp [fcLookup, hk]
      · simp only [fcLookup, if_neg hd, ih]

theorem fcLookup_forecast_fold (items : List ForecastItem)
    (acc : List (PyStr × Int)) (d : PyStr) :
    fcLookup (items.foldl (fun a it => forecast_step a (dateOf it) it.temp) acc) d =
      maxOpt (fcLookup acc d) (listMax (dateTemps items d)) := by
  induction items generalizing acc with
  | nil => simp [dateTemps, listMax, maxOpt_none_right]
  | cons it rest ih =>
    simp only [List.foldl_cons, ih, fcLookup_forecast_step]
    by_cases hd : d = dateOf it
    · rw [if_pos hd]
      have hcons : dateTemps (it :: rest) d = it.temp :: dateTemps rest d := by
        simp [dateTemps, List.filter_cons, hd.symm]
      rw [hcons, maxOpt_assoc]
      rfl
    · rw [if_neg hd]
      have hcons : dateTemps (it :: rest) d = dateTemps rest d := by
        simp [dateTemps, List.filter_cons, Ne.symm hd]
      rw [hcons]

theorem keys_fold_dedupFirst (dates : List PyStr) (ks : List PyStr) :
    ks ++ dedupFirst (dates.filter fun x => decide (x ∉ ks)) =
      dates.foldl (fun acc d => if d ∈ acc then acc else acc ++ [d]) ks := by
  induction dates generalizing ks with
  | nil => simp [dedupFirst]
  | cons d rest ih =>
    simp only [List.foldl_cons, List.filter_cons]
    by_cases hd : d ∈ ks
    · rw [if_neg (by simp [hd]), if_pos hd]
      exact ih ks
    · rw [if_pos (by simp [hd]), if_neg hd, dedupFirst]
      have hfilter :
          ((rest.filter fun x => decide (x ∉ ks)).filter fun x => decide (x ≠ d)) =
            rest.filter fun x => decide (x ∉ ks ++ [d]) := by
        rw [List.filter_filter]
        apply List.filter_congr
        intro a _
        by_cases ha1 : a ∈ ks <;> by_cases ha2 : a = d <;>
          simp [ha1, ha2, List.mem_append]
      rw [hfilter, ← ih (ks ++ [d]), List.append_cons]

theorem forecast_map_keys (items : List ForecastItem) :
    (forecast_map items).map Prod.fst = dedupFirst (items.map dateOf) := by
  have hstep : ∀ (acc : List (PyStr × Int)) (it : ForecastItem),
      (forecast_step acc (dateOf it) it.temp).map Prod.fst =
        (fun ks d => if d ∈ ks then ks else ks ++ [d]) (acc.map Prod.fst) (dateOf it) :=
    fun acc it => forecast_step_keys acc (dateOf it) it.temp
  have hfold : ∀ (items : List ForecastItem) (acc : List (PyStr × Int)),
      (items.foldl (fun a it => forecast_step a (dateOf it) it.temp) acc).map Prod.fst =
        (items.map dateOf).foldl (fun ks d => if d ∈ ks then ks else ks ++ [d])
          (acc.map Prod.fst) := by
    intro items
    induction items with
    | nil => intro acc; rfl
    | cons it rest ih =>
      intro acc
      simp only [List.foldl_cons, List.map_cons, ih, hstep]
  rw [forecast_map, hfold, List.map_nil, ← keys_fold_dedupFirst]
  simp

theorem dedupFirst_subset (l : List PyStr) : dedupFirst l ⊆ l := by
  induction l using dedupFirst.induct with
  | case1 => simp [dedupFirst]
  | case2 d rest ih =>
    rw [dedupFirst]
    intro x hx
    rcases List.mem_cons.mp hx with h | h
    · simp [h]
    · exact List.mem_cons_of_mem d (List.mem_of_mem_filter (ih h))

theorem dedupFirst_nodup (l : List PyStr) : (dedupFirst l).Nodup := by
  induction l using dedupFirst.induct with
  | case1 => simp [dedupFirst]
  | case2 d rest ih =>
    rw [dedupFirst]
    refine List.nodup_cons.mpr ⟨?_, ih⟩
    intro hd
    have := List.of_mem_filter (dedupFirst_subset _ hd)
    simp at this

theorem fcLookup_of_mem (l : List (PyStr × Int))
    (hnd : (l.map Prod.fst).Nodup) (d : PyStr) (v : Int)
    (hm : (d, v) ∈ l) : fcLookup l d = some v := by
  induction l with
  | nil => cases hm
  | cons kv rest ih =>
    obtain ⟨k, w⟩ := kv
    simp only [List.map_cons, List.nodup_cons] at hnd
    rcases List.mem_cons.mp hm with h | h
    · obtain ⟨hdk, hvw⟩ : d = k ∧ v = w :=
        ⟨congrArg Prod.fst h, congrArg Prod.snd h⟩
      subst hdk
      subst hvw
      simp [fcLookup]
    · have hkd : ¬(k = d) := by
        intro hk
        exact hnd.1 (hk ▸ List.mem_map_of_mem Prod.fst h)
      simp only [fcLookup, if_neg hkd]
      exact ih hnd.2 h

/-! ## Claim theorems -/

/-- C6: theme selection is case-insensitive substring match with first match
winning: "clear" → sunny, then "cloud" → gray, then any of
"rain"/"drizzle"/"thunder" → cool blue, otherwise the default neutral palette;
in particular "Thunderstorm" → blue, "Clouds" → gray, "Clear" → sunny,
"Mist" → default. -/
theorem update_theme_spec :
    (∀ cm : PyStr, strContains (pyLower cm) kwClear = true →
      update_theme cm = sunnyBg) ∧
    (∀ cm : PyStr, strContains (pyLower cm) kwClear = false →
      strContains (pyLower cm) kwCloud = true →
      update_theme cm = grayBg) ∧
    (∀ cm : PyStr, strContains (pyLower cm) kwClear = false →
      strContains (pyLower cm) kwCloud = false →
      (strContains (pyLower cm) kwRain = true ∨
       strContains (pyLower cm) kwDrizzle = true ∨
       strContains (pyLower cm) kwThunder = true) →
      update_theme cm = blueBg) ∧
    (∀ cm : PyStr, strContains (pyLower cm) kwClear = false →
      strContains (pyLower cm) kwCloud = false →
      strContains (pyLower cm) kwRain = false →
      strContains (pyLower cm) kwDrizzle = false →
      strContains (pyLower cm) kwThunder = false →
      update_theme cm = defaultBg) ∧
    update_theme ("Thunderstorm".toList) = blueBg ∧
    update_theme ("Clouds".toList) = grayBg ∧
    update_theme ("Clear".toList) = sunnyBg ∧
    update_theme ("Mist".toList) = defaultBg := by
  refine ⟨?_, ?_, ?_, ?_, ?_, ?_, ?_, ?_⟩
  · intro cm h
    simp [update_theme, h]
  · intro cm h1 h2
    simp [update_theme, h1, h2]
  · intro cm h1 h2 h3
    have : ([kwRain, kwDrizzle, kwThunder].any
        fun k => strContains (pyLower cm) k) = true := by
      simp only [List.any_cons, List.any_nil, Bool.or_eq_true, Bool.or_false]
      rcases h3 with h | h | h
      · exact Or.inl h
      · exact Or.inr (Or.inl h)
      · exact Or.inr (Or.inr h)
    simp [update_theme, h1, h2, this]
  · intro cm h1 h2 h3 h4 h5
    simp [update_theme, h1, h2, h3, h4, h5]
  · decide
  · decide
  · decide
  · decide

/-- Witness for `update_theme_spec`: its first conjunct applied at a
concrete condition string. -/
theorem update_theme_spec_witness :
    update_theme ("clear sky".toList) = sunnyBg :=
  update_theme_spec.1 ("clear sky".toList) (by decide)

/-- C8: with k ≥ 1 items and selected index i < k, Down selects (i+1) mod k
and Up selects (i-1) mod k (written (i+(k-1)) mod k over ℕ); in particular
Down wraps from k-1 to 0 and Up wraps from 0 to k-1. -/
theorem navigate_index_wraps (k i : Nat) (hk : 0 < k) (hi : i < k) :
    navigate_index .down (some i) k = (i + 1) % k ∧
    navigate_index .up (some i) k = (i + (k - 1)) % k ∧
    navigate_index .down (some (k - 1)) k = 0 ∧
    navigate_index .up (some 0) k = k - 1 := by
  have hdown : ∀ j : Nat, navigate_index .down (some j) k = (j + 1) % k := by
    intro j
    show ((((j : Int)) + 1) % (k : Int)).toNat = (j + 1) % k
    rw [show ((j : Int) + 1) = ((j + 1 : Nat) : Int) by push_cast; ring]
    rw [← Int.natCast_mod, Int.toNat_natCast]
  have hup : ∀ j : Nat, navigate_index .up (some j) k = (j + (k - 1)) % k := by
    intro j
    show ((((j : Int)) - 1) % (k : Int)).toNat = (j + (k - 1)) % k
    rw [← Int.add_mul_emod_self_left ((j : Int) - 1) (k : Int) 1]
    rw [show ((j : Int) - 1 + (k : Int) * 1) = ((j + (k - 1) : Nat) : Int) by
      push_cast [hk]
      omega]
    rw [← Int.natCast_mod, Int.toNat_natCast]
  refine ⟨hdown i, hup i, ?_, ?_⟩
  · rw [hdown (k - 1), Nat.sub_add_cancel hk, Nat.mod_self]
  · rw [hup 0, Nat.zero_add, Nat.mod_eq_of_lt (by omega)]

/-- Witness for `navigate_index_wraps` at k = 3, i = 2. -/
theorem navigate_index_wraps_witness :
    navigate_index .down (some 2) 3 = (2 + 1) % 3 ∧
    navigate_index .up (some 2) 3 = (2 + (3 - 1)) % 3 ∧
    navigate_index .down (some (3 - 1)) 3 = 0 ∧
    navigate_index .up (some 0) 3 = 3 - 1 :=
  navigate_index_wraps 3 2 (by decide) (by decide)

/-- C10: `suggestions_visible → box nonempty` is established by
`_show_suggestions` and `_hide_suggestions` outright, preserved by
`_navigate_suggestions` and `_on_suggestion_select`, and under it the
divisor `self.suggestions_box.size()` in navigation is nonzero whenever the
early-return guard `not self.suggestions_visible` is passed. -/
theorem suggest_inv_preserved :
    (∀ s items, SuggestInv (show_suggestions s items)) ∧
    (∀ s, SuggestInv (hide_suggestions s)) ∧
    (∀ s key, SuggestInv s → SuggestInv (navigate_suggestions s key)) ∧
    (∀ s, SuggestInv s → SuggestInv (on_suggestion_select s)) ∧
    (∀ s, SuggestInv s → s.visible = true → s.boxItems.length ≠ 0) := by
  refine ⟨?_, ?_, ?_, ?_, ?_⟩
  · intro s items
    cases items with
    | nil =>
      intro h
      by_cases hv : s.visible = true <;>
        simp [show_suggestions, hide_suggestions, hv] at h
    | cons a as => intro _ h; simp [show_suggestions] at h
  · intro s h
    simp only [hide_suggestions] at h
    split at h <;> simp_all
  · intro s key hs
    simp only [navigate_suggestions]
    split
    · exact hs
    · intro h
      exact hs h
  · intro s hs
    simp only [on_suggestion_select]
    split
    · intro h
      simp only [hide_suggestions] at h
      split at h <;> simp_all
    · exact hs
  · intro s hs hv
    simpa using fun hnil => hs hv (List.length_eq_zero.mp hnil)

/-- Witness for `suggest_inv_preserved`: navigation preserves the invariant
on a concrete visible state. -/
theorem suggest_inv_preserved_witness :
    SuggestInv (navigate_suggestions ⟨["Paris, FR".toList], true, none, none⟩ .down) :=
  suggest_inv_preserved.2.2.1 ⟨["Paris, FR".toList], true, none, none⟩ .down
    (by intro _; simp)

/-- C7: any suggestion-fetch failure yields the empty suggestion list, the
delivery never changes the dialog state, and delivering a failure is the very
same state transition as delivering a successful empty result, leaving the
suggestion box hidden. -/
theorem suggestion_failures_silent :
    worker_suggestions .exc = [] ∧
    (∀ (outcome : GeoOutcome) (s : SuggestState),
      (autocomplete_deliver outcome s).dialog = s.dialog) ∧
    (∀ s : SuggestState,
      autocomplete_deliver .exc s = autocomplete_deliver (.ok []) s) ∧
    (∀ s : SuggestState, (autocomplete_deliver .exc s).visible = false) := by
  refine ⟨rfl, ?_, ?_, ?_⟩
  · intro outcome s
    simp only [autocomplete_deliver, show_suggestions, hide_suggestions]
    split
    · split <;> rfl
    · rfl
  · intro s
    rfl
  · intro s
    by_cases hv : s.visible = true <;>
      simp [autocomplete_deliver, worker_suggestions, show_suggestions,
        hide_suggestions, hv]

/-- C1 counterexample: issue query 1 then query 2 (so epoch 1 is superseded),
deliver query 2's result, then deliver query 1's stale result. The stale
delivery is not discarded: it changes the state and its suggestion list is
rendered. -/
theorem stale_result_rendered_cex :
    (deliver_result
        (deliver_result (issue_query (issue_query acInit)) 2 ["Parma, IT".toList])
        1 ["Paris, FR".toList]) ≠
      deliver_result (issue_query (issue_query acInit)) 2 ["Parma, IT".toList] ∧
    (deliver_result
        (deliver_result (issue_query (issue_query acInit)) 2 ["Parma, IT".toList])
        1 ["Paris, FR".toList]).ui.boxItems = ["Paris, FR".toList] ∧
    (deliver_result
        (deliver_result (issue_query (issue_query acInit)) 2 ["Parma, IT".toList])
        1 ["Paris, FR".toList]).ui.visible = true := by
  refine ⟨?_, rfl, rfl⟩
  intro h
  exact absurd (congrArg (fun st => st.ui.boxItems) h) (by decide)

/-- C1 amended: src/app.py has no RequestEpoch. A delivered autocomplete
result is applied through `_show_suggestions` regardless of which query
produced it: delivery is independent of the tag, and a non-empty result is
always rendered, stale or not. -/
theorem deliver_result_ignores_epoch :
    (∀ (st : AcState) (tag1 tag2 : Nat) (res : List PyStr),
      deliver_result st tag1 res = deliver_result st tag2 res) ∧
    (∀ (st : AcState) (tag : Nat) (res : List PyStr), res ≠ [] →
      (deliver_result st tag res).ui.boxItems = res ∧
      (deliver_result st tag res).ui.visible = true) := by
  constructor
  · intro st tag1 tag2 res
    rfl
  · intro st tag res hres
    simp [deliver_result, show_suggestions, hres]

/-- Witness for `deliver_result_ignores_epoch`: a concrete non-empty stale
result is rendered. -/
theorem deliver_result_ignores_epoch_witness :
    (deliver_result acInit 1 ["Paris, FR".toList]).ui.boxItems =
        ["Paris, FR".toList] ∧
    (deliver_result acInit 1 ["Paris, FR".toList]).ui.visible = true :=
  deliver_result_ignores_epoch.2 acInit 1 ["Paris, FR".toList] (by decide)

/-- C2 counterexample: on a 404 response whose payload carries the message
"city not found", the City Error message is "API error: city not found", not
the server message verbatim. -/
theorem fetch_weather_msg_cex :
    fetch_weather_classify 404
        ⟨some ("404".toList), some ("city not found".toList),
          none, none, none, none, []⟩ =
      .cityError ("API error: city not found".toList) ∧
    ("API error: city not found".toList : PyStr) ≠ "city not found".toList := by
  constructor
  · rfl
  · decide

/-- C2 amended: on a non-200 transport status or a stringified payload status
≠ "200", the fetch yields a City Error whose message is "API error: "
followed by the server-supplied message when one is present, and
"API error: " followed by "Unable to fetch weather data." otherwise. -/
theorem fetch_weather_error_message (status_code : Nat) (data : WeatherPayload)
    (h : status_code ≠ 200 ∨ pyStrOfOpt data.cod ≠ "200".toList) :
    (∀ m, data.message = some m →
      fetch_weather_classify status_code data = .cityError (api_error_text m)) ∧
    (data.message = none →
      fetch_weather_classify status_code data =
        .cityError (api_error_text default_weather_msg)) := by
  constructor
  · intro m hm
    unfold fetch_weather_classify
    rw [if_pos h, hm]
    rfl
  · intro hm
    unfold fetch_weather_classify
    rw [if_pos h, hm]
    rfl

/-- Witness for `fetch_weather_error_message` at a concrete 404 response. -/
theorem fetch_weather_error_message_witness :
    fetch_weather_classify 404
        ⟨some ("404".toList), some ("city not found".toList),
          none, none, none, none, []⟩ =
      .cityError (api_error_text ("city not found".toList)) :=
  (fetch_weather_error_message 404
      ⟨some ("404".toList), some ("city not found".toList),
        none, none, none, none, []⟩
      (by decide)).1 ("city not found".toList) rfl

/-- C3 counterexample: with no API key resolved (empty key), the autocomplete
action still performs the network call and surfaces no missing-credential
dialog. -/
theorem autocomplete_ignores_missing_key_cex :
    (do_autocomplete_start ("Paris".toList) []).networkCall = true ∧
    (do_autocomplete_start ("Paris".toList) []).credDialog = false ∧
    (do_autocomplete_start ("Paris".toList) []).keySent = some [] := by
  decide

/-- C3 amended: with an empty resolved key, the current-weather and forecast
actions show the missing-credential dialog and perform no network call, but
the autocomplete suggestion action (on any stripped query of length ≥ 2)
performs the network call with the empty key and shows no dialog. -/
theorem missing_key_guards (city_raw q_raw : PyStr)
    (hcity : pyStrip city_raw ≠ []) (hq : 2 ≤ (pyStrip q_raw).length) :
    fetch_weather_start city_raw [] = ⟨false, none, true, none⟩ ∧
    fetch_forecast_start city_raw [] = ⟨false, none, true, none⟩ ∧
    do_autocomplete_start q_raw [] = ⟨true, some [], false, none⟩ := by
  have hq2 : ¬(pyStrip q_raw = [] ∨ (pyStrip q_raw).length < 2) := by
    push_neg
    exact ⟨fun h => by simp [h] at hq, hq⟩
  refine ⟨?_, ?_, ?_⟩
  · simp [fetch_weather_start, hcity]
  · simp [fetch_forecast_start, hcity]
  · simp only [do_autocomplete_start, if_neg hq2]

/-- Witness for `missing_key_guards` at concrete inputs. -/
theorem missing_key_guards_witness :
    fetch_weather_start ("Paris".toList) [] = ⟨false, none, true, none⟩ ∧
    fetch_forecast_start ("Paris".toList) [] = ⟨false, none, true, none⟩ ∧
    do_autocomplete_start ("Paris".toList) [] = ⟨true, some [], false, none⟩ :=
  missing_key_guards ("Paris".toList) ("Paris".toList) (by decide) (by decide)

/-- C9: whenever any one of humidity, wind speed (defaulting to 0 when the
payload omits it), or feels-like is zero or absent, the whole details line is
the placeholder, even if the other values are present; e.g. humidity 60 and
feels-like 18 with an absent wind speed still shows the placeholder. -/
theorem details_line_all_or_nothing :
    (∀ (humidity wind_speed_raw feels_like : Option Int) (windSym tempSym : PyStr),
      (truthyNum humidity = false ∨ wind_speed_raw.getD 0 = 0 ∨
        truthyNum feels_like = false) →
      update_ui_details humidity (wind_speed_raw.getD 0) feels_like windSym tempSym =
        .placeholder windSym tempSym) ∧
    update_ui_details (some 60) ((none : Option Int).getD 0) (some 18)
        ("km/h".toList) ("°C".toList) =
      .placeholder ("km/h".toList) ("°C".toList) := by
  constructor
  · intro humidity wind_speed_raw feels_like windSym tempSym h
    simp only [update_ui_details]
    rcases h with h | h | h <;> simp [h]
  · decide

/-- Witness for `details_line_all_or_nothing`: its universal conjunct applied
at humidity 0 with the other values present. -/
theorem details_line_all_or_nothing_witness :
    update_ui_details (some 0) ((some 5 : Option Int).getD 0) (some 18)
        ("km/h".toList) ("°C".toList) =
      .placeholder ("km/h".toList) ("°C".toList) :=
  details_line_all_or_nothing.1 (some 0) (some 5) (some 18)
    ("km/h".toList) ("°C".toList) (by decide)

/-- C5: every failure class of the weather worker enqueues a (non-empty list
of) UI callback(s) whose application re-enables the fetch button and clears
the progress bar, from any control state; every forecast-worker failure
enqueues callbacks whose application re-enables the forecast button; and the
forecast path has no busy indicator to clear — neither its setup nor its
failure callbacks touch the progress bar. -/
theorem failure_callbacks_restore_ui :
    (∀ (f : WeatherFailure) (s : Controls),
      weather_failure_callbacks f ≠ [] ∧
      (applyCallbacks (weather_failure_callbacks f) s).fetch_btn_enabled = true ∧
      (applyCallbacks (weather_failure_callbacks f) s).progress_visible = false ∧
      (applyCallbacks (weather_failure_callbacks f) s).progress_running = false) ∧
    (∀ (m : PyStr) (s : Controls),
      forecast_failure_callbacks m ≠ [] ∧
      (applyCallbacks (forecast_failure_callbacks m) s).forecast_btn_enabled = true ∧
      (applyCallbacks (forecast_failure_callbacks m) s).progress_visible =
        s.progress_visible ∧
      (applyCallbacks (forecast_failure_callbacks m) s).progress_running =
        s.progress_running) ∧
    (∀ s : Controls,
      (fetch_forecast_busy s).progress_visible = s.progress_visible ∧
      (fetch_forecast_busy s).progress_running = s.progress_running) := by
  refine ⟨?_, ?_, ?_⟩
  · intro f s
    cases f <;>
      exact ⟨by simp [weather_failure_callbacks], rfl, rfl, rfl⟩
  · intro m s
    exact ⟨by simp [forecast_failure_callbacks], rfl, rfl, rfl⟩
  · intro s
    exact ⟨rfl, rfl⟩

/-- C4: the forecast reduction keeps at most 5 entries; its keys are the
first 5 distinct dates in order of first appearance; every retained entry's
value is the maximum temperature over all of that date's samples (hence, by
permutation-invariance of the maximum, invariant under reordering of that
date's samples); and the spec's concrete example — three same-date samples
with temperatures 10, 15, 12 — reduces to the single entry 15. -/
theorem fetch_forecast_entries_spec :
    (∀ items : List ForecastItem, (fetch_forecast_entries items).length ≤ 5) ∧
    (∀ items : List ForecastItem,
      (fetch_forecast_entries items).map Prod.fst =
        (dedupFirst (items.map dateOf)).take 5) ∧
    (∀ (items : List ForecastItem) (d : PyStr) (v : Int),
      (d, v) ∈ fetch_forecast_entries items →
      listMax (dateTemps items d) = some v) ∧
    (∀ (items1 items2 : List ForecastItem) (d : PyStr) (v1 v2 : Int),
      (dateTemps items1 d).Perm (dateTemps items2 d) →
      (d, v1) ∈ fetch_forecast_entries items1 →
      (d, v2) ∈ fetch_forecast_entries items2 → v1 = v2) ∧
    fetch_forecast_entries
        [⟨"2024-06-01 00:00:00".toList, 10⟩, ⟨"2024-06-01 03:00:00".toList, 15⟩,
         ⟨"2024-06-01 06:00:00".toList, 12⟩] =
      [("2024-06-01".toList, 15)] := by
  have hlookup : ∀ (items : List ForecastItem) (d : PyStr) (v : Int),
      (d, v) ∈ fetch_forecast_entries items →
      listMax (dateTemps items d) = some v := by
    intro items d v hm
    have hmem : (d, v) ∈ forecast_map items :=
      List.take_subset 5 (forecast_map items) hm
    have hnd : ((forecast_map items).map Prod.fst).Nodup := by
      rw [forecast_map_keys]
      exact dedupFirst_nodup _
    have hlk : fcLookup (forecast_map items) d = some v :=
      fcLookup_of_mem _ hnd d v hmem
    have hfold := fcLookup_forecast_fold items [] d
    rw [forecast_map] at hlk
    rw [hlk] at hfold
    simpa [fcLookup, maxOpt] using hfold.symm
  refine ⟨?_, ?_, hlookup, ?_, ?_⟩
  · intro items
    rw [fetch_forecast_entries, List.length_take]
    exact Nat.min_le_left _ _
  · intro items
    rw [fetch_forecast_entries, List.map_take, forecast_map_keys]
  · intro items1 items2 d v1 v2 hperm h1 h2
    have e1 := hlookup items1 d v1 h1
    have e2 := hlookup items2 d v2 h2
    rw [listMax_perm hperm] at e1
    rw [e1] at e2
    exact Option.some.inj e2
  · decide

/-- Witness for `fetch_forecast_entries_spec`: its maximum-value conjunct
applied at a concrete one-sample list. -/
theorem fetch_forecast_entries_spec_witness :
    listMax (dateTemps [⟨"2024-06-01 00:00:00".toList, 10⟩] ("2024-06-01".toList)) =
      some 10 :=
  fetch_forecast_entries_spec.2.2.1 [⟨"2024-06-01 00:00:00".toList, 10⟩]
    ("2024-06-01".toList) 10 (by decide)

end WeatherApp
